import Mathlib

/-!
# vcgMeshCutterNode: the dependency-graph node around the mesh-cutting factory

A shallow embedding of `src/vcgNodes/vcgMeshCutter/vcgMeshCutterNode.cpp`.

* The data block is a record with one slot per attribute of the node. A slot either
  holds a value or is unreadable, in which case the access reports a non-success status.
* `compute` is written with explicit state passing: it returns the status, the data
  block and the factory as they are when `compute` returns, and the trace of every call
  it made on the data block, on a data handle or on the factory, in program order.
* The factory class `vcgMeshCutterFty` is declared outside this file. Its state is
  modelled as one field per setter, and its `doIt` is a parameter of `compute`.
* An `MObject` on mesh data is a handle with an identity: it designates the mesh object of
  one slot of the data block. The factory works in place on the object it was handed, so
  what `doIt` leaves in its mesh is written to that object and to no other.
-/

namespace MayaVcg

/-! ## Host types -/

/-- Status codes of the host's `MStatus`. -/
inductive MStatus
  | kSuccess
  | kFailure
  | kInsufficientMemory
  | kInvalidParameter
  | kLicenseFailure
  | kUnknownParameter
  | kNotImplemented
  | kNotFound
  | kEndOfFile
  deriving DecidableEq, Repr

/-- The status reported by a data-block access that did not succeed: any code but `kSuccess`. -/
structure Failure where
  status : MStatus
  failed : status ≠ MStatus.kSuccess
  deriving DecidableEq

/-- What an access to one attribute of the data block yields: a handle on a value, or a
failure status. -/
inductive Slot (α : Type)
  | value (v : α)
  | unreadable (f : Failure)
  deriving DecidableEq

/-- The status an access to a slot stores in `status`. -/
def Slot.status {α : Type} : Slot α → MStatus
  | Slot.value _ => MStatus.kSuccess
  | Slot.unreadable f => f.status

/-- The attributes of the node: `state` is inherited from the host's node class, the next
nine are the static members declared at lines 40-48, and `other n` stands for any further
attribute of the node a plug may designate. -/
inductive Attr
  | state
  | inMesh
  | outMesh
  | aEnable
  | aInvert
  | aWorldMatrix
  | aCutterBBoxMin
  | aCutterBBoxMax
  | aCutterMatrix
  | aCutterShapeType
  | other (n : Nat)
  deriving DecidableEq, Repr

/-- A plug, identified by the attribute it designates; `plug == attr` compares that
attribute. -/
structure MPlug where
  attr : Attr
  deriving DecidableEq, Repr

/-- A float or double. The node only ever copies such values, so one is carried as its
bit pattern. -/
abbrev Scalar := Nat

/-- A 4x4 matrix of doubles, row by row. -/
structure MMatrix where
  matrix : List (List Scalar)
  deriving DecidableEq, Repr

/-- A vector of three floats. -/
structure MFloatVector where
  x : Scalar
  y : Scalar
  z : Scalar
  deriving DecidableEq, Repr

/-- A homogeneous point of four floats. -/
structure MFloatPoint where
  x : Scalar
  y : Scalar
  z : Scalar
  w : Scalar
  deriving DecidableEq, Repr

/-- The conversion `MFloatPoint p = v` of lines 131 and 137: the three coordinates are
copied and `w` is `1.0f` (bit pattern `0x3F800000`). -/
def MFloatPoint.ofVector (v : MFloatVector) : MFloatPoint :=
  ⟨v.x, v.y, v.z, 0x3F800000⟩

/-- Mesh data: vertex positions and, per face, the indices of its vertices. -/
structure Mesh where
  vertices : List MFloatPoint
  polygons : List (List Nat)
  deriving DecidableEq, Repr

/-! ## The factory -/

/-- Modelled from the spec: the factory class `vcgMeshCutterFty` is declared in a header that
is not part of this source file. Its state has one field per setter that `compute` calls
(invert flag, the two transforms, the primitive's local extents and shape type, the mesh);
the `Shapes` enumeration is carried as its underlying integer, which is what
`static_cast<Shapes>(short)` preserves. -/
structure vcgMeshCutterFty where
  fInvert : Bool
  fWorldMatrix : MMatrix
  fCutterBBoxMin : MFloatPoint
  fCutterBBoxMax : MFloatPoint
  fCutterMatrix : MMatrix
  fCutterShapeType : Int
  fMesh : Mesh
  deriving DecidableEq, Repr

/-- Modelled from the spec: `setInvert` stores the invert flag. -/
def vcgMeshCutterFty.setInvert (fty : vcgMeshCutterFty) (b : Bool) : vcgMeshCutterFty :=
  { fty with fInvert := b }

/-- Modelled from the spec: `setWorldMatrix` stores the mesh's world transform. -/
def vcgMeshCutterFty.setWorldMatrix (fty : vcgMeshCutterFty) (m : MMatrix) : vcgMeshCutterFty :=
  { fty with fWorldMatrix := m }

/-- Modelled from the spec: `setCutterBBoxMin` stores the primitive's local minimum. -/
def vcgMeshCutterFty.setCutterBBoxMin (fty : vcgMeshCutterFty) (p : MFloatPoint) :
    vcgMeshCutterFty :=
  { fty with fCutterBBoxMin := p }

/-- Modelled from the spec: `setCutterBBoxMax` stores the primitive's local maximum. -/
def vcgMeshCutterFty.setCutterBBoxMax (fty : vcgMeshCutterFty) (p : MFloatPoint) :
    vcgMeshCutterFty :=
  { fty with fCutterBBoxMax := p }

/-- Modelled from the spec: `setCutterMatrix` stores the cutter's transform. -/
def vcgMeshCutterFty.setCutterMatrix (fty : vcgMeshCutterFty) (m : MMatrix) : vcgMeshCutterFty :=
  { fty with fCutterMatrix := m }

/-- Modelled from the spec: `setCutterShapeType` stores the primitive's shape type. -/
def vcgMeshCutterFty.setCutterShapeType (fty : vcgMeshCutterFty) (t : Int) : vcgMeshCutterFty :=
  { fty with fCutterShapeType := t }

/-- Modelled from the spec: `setMesh` stores the mesh the cut works on. The field holds the
data of the mesh object the factory was handed; which object that is, is tracked where
`setMesh` is called. -/
def vcgMeshCutterFty.setMesh (fty : vcgMeshCutterFty) (m : Mesh) : vcgMeshCutterFty :=
  { fty with fMesh := m }

/-- The factory's `doIt`, whose body is not part of this source file: from the factory as
configured it yields a status and the factory as the run leaves it. -/
abbrev DoIt := vcgMeshCutterFty → MStatus × vcgMeshCutterFty

/-! ## The data block -/

/-- The data block handed to `compute`. `outMeshClean` is the clean flag of `outMesh`. -/
structure MDataBlock where
  state : Slot Int
  inMesh : Slot Mesh
  outMesh : Slot Mesh
  aEnable : Slot Bool
  aInvert : Slot Bool
  aWorldMatrix : Slot MMatrix
  aCutterBBoxMin : Slot MFloatVector
  aCutterBBoxMax : Slot MFloatVector
  aCutterMatrix : Slot MMatrix
  aCutterShapeType : Slot Int
  outMeshClean : Bool
  deriving DecidableEq

/-- The call `outputData.set(mesh)` on the handle of `outMesh`: the slot now holds a copy
of the mesh (line 105: "Copy the inMesh to the outMesh"). -/
def MDataBlock.set (data : MDataBlock) (mesh : Mesh) : MDataBlock :=
  { data with outMesh := Slot.value mesh }

/-- The mesh data read through the handle of `outMesh`: the mesh the slot holds (a null,
empty mesh when the slot holds none). -/
def MDataBlock.asMesh (data : MDataBlock) : Mesh :=
  match data.outMesh with
  | Slot.value m => m
  | Slot.unreadable _ => ⟨[], []⟩

/-- The call `outputData.setClean()` on the handle of `outMesh`. -/
def MDataBlock.setClean (data : MDataBlock) : MDataBlock :=
  { data with outMeshClean := true }

/-- A data handle, as `inputValue` and `outputValue` return it: it designates the slot of
one attribute of the data block. -/
structure MDataHandle where
  attr : Attr
  deriving DecidableEq, Repr

/-- An `MObject` on mesh data is a handle, not the data: it designates the mesh object that
the slot of one attribute holds. Two of them are the same object exactly when they
designate the same slot. -/
structure MObject where
  slot : Attr
  deriving DecidableEq, Repr

/-- The call `handle.asMesh()`: the mesh object of the slot the handle designates. -/
def MDataHandle.asMesh (h : MDataHandle) : MObject := ⟨h.attr⟩

/-- The mesh data of the object an `MObject` designates (a null, empty mesh when the slot
holds none or is not a mesh slot). -/
def MDataBlock.meshData (data : MDataBlock) (obj : MObject) : Mesh :=
  match obj.slot with
  | Attr.inMesh =>
    match data.inMesh with
    | Slot.value m => m
    | Slot.unreadable _ => ⟨[], []⟩
  | Attr.outMesh => data.asMesh
  | _ => ⟨[], []⟩

/-- A change made in place to the mesh object an `MObject` designates: the slot that holds
the object now holds the changed mesh, and no other slot is touched. -/
def MDataBlock.modifyMesh (data : MDataBlock) (obj : MObject) (mesh : Mesh) : MDataBlock :=
  match obj.slot with
  | Attr.inMesh => { data with inMesh := Slot.value mesh }
  | Attr.outMesh => { data with outMesh := Slot.value mesh }
  | _ => data

/-! ## The trace of calls -/

/-- One call made by `compute`, with its arguments; an access carries the status it
reported, `setMesh` the mesh object handed over and the data it holds then, `doIt` the
factory it ran on and the status it returned. -/
inductive Event
  | inputValue (a : Attr) (st : MStatus)
  | outputValue (a : Attr) (st : MStatus)
  | set (a : Attr) (mesh : Mesh)
  | setInvert (b : Bool)
  | setWorldMatrix (m : MMatrix)
  | setCutterBBoxMin (p : MFloatPoint)
  | setCutterBBoxMax (p : MFloatPoint)
  | setCutterMatrix (m : MMatrix)
  | setCutterShapeType (t : Int)
  | setMesh (obj : MObject) (mesh : Mesh)
  | doIt (fty : vcgMeshCutterFty) (st : MStatus)
  | setClean (a : Attr)
  deriving DecidableEq

/-- What a call of `compute` leaves behind: the returned status, the data block, the node's
factory member, and the calls made, in order. -/
structure Outcome where
  status : MStatus
  data : MDataBlock
  fFactory : vcgMeshCutterFty
  trace : List Event
  deriving DecidableEq

/-! ## vcgMeshCutterNode::compute (lines 56-170) -/

/-- The method `vcgMeshCutterNode::compute(plug, data)` on a node whose factory member is
`fFactory`. Each `MCheckStatus` is the `unreadable` branch of the access before it: the
status is returned at once. The call `outputData.set(inputData.asMesh())` copies the data
of the `inMesh` object into `outMesh` (lines 105-106). The factory works in place on the
mesh object `mesh` it is handed at line 155: what `doIt` leaves in the factory's mesh is
written to the object `mesh` designates. -/
def compute (doIt : DoIt) (plug : MPlug) (data : MDataBlock) (fFactory : vcgMeshCutterFty) :
    Outcome :=
  -- lines 69-70
  match data.state with
  | Slot.unreadable f => ⟨f.status, data, fFactory, [Event.outputValue Attr.state f.status]⟩
  | Slot.value stateData =>
    let t := [Event.outputValue Attr.state MStatus.kSuccess]
    -- line 81
    if stateData = 1 then
      -- lines 83-84
      match data.inMesh with
      | Slot.unreadable f =>
        ⟨f.status, data, fFactory, t ++ [Event.inputValue Attr.inMesh f.status]⟩
      | Slot.value _ =>
        let inputData : MDataHandle := ⟨Attr.inMesh⟩
        let t := t ++ [Event.inputValue Attr.inMesh MStatus.kSuccess]
        -- lines 86-87
        match data.outMesh with
        | Slot.unreadable f =>
          ⟨f.status, data, fFactory, t ++ [Event.outputValue Attr.outMesh f.status]⟩
        | Slot.value _ =>
          let outputData : MDataHandle := ⟨Attr.outMesh⟩
          let t := t ++ [Event.outputValue Attr.outMesh MStatus.kSuccess]
          -- line 90: outputData.set(inputData.asMesh())
          let copied := data.meshData inputData.asMesh
          let data := data.set copied
          let t := t ++ [Event.set outputData.attr copied]
          -- line 169: status is the one of the last access
          ⟨MStatus.kSuccess, data, fFactory, t⟩
    -- line 97
    else if plug.attr = Attr.outMesh then
      -- lines 99-100
      match data.inMesh with
      | Slot.unreadable f =>
        ⟨f.status, data, fFactory, t ++ [Event.inputValue Attr.inMesh f.status]⟩
      | Slot.value _ =>
        let inputData : MDataHandle := ⟨Attr.inMesh⟩
        let t := t ++ [Event.inputValue Attr.inMesh MStatus.kSuccess]
        -- lines 102-103
        match data.outMesh with
        | Slot.unreadable f =>
          ⟨f.status, data, fFactory, t ++ [Event.outputValue Attr.outMesh f.status]⟩
        | Slot.value _ =>
          let outputData : MDataHandle := ⟨Attr.outMesh⟩
          let t := t ++ [Event.outputValue Attr.outMesh MStatus.kSuccess]
          -- line 107: outputData.set(inputData.asMesh())
          let copied := data.meshData inputData.asMesh
          let data := data.set copied
          let t := t ++ [Event.set outputData.attr copied]
          -- lines 110-111
          match data.aEnable with
          | Slot.unreadable f =>
            ⟨f.status, data, fFactory, t ++ [Event.inputValue Attr.aEnable f.status]⟩
          | Slot.value enableData =>
            let t := t ++ [Event.inputValue Attr.aEnable MStatus.kSuccess]
            -- lines 112-115
            if !enableData then
              ⟨MStatus.kSuccess, data, fFactory, t⟩
            else
              -- lines 118-120
              match data.aInvert with
              | Slot.unreadable f =>
                ⟨f.status, data, fFactory, t ++ [Event.inputValue Attr.aInvert f.status]⟩
              | Slot.value invertData =>
                let fFactory := fFactory.setInvert invertData
                let t := t ++ [Event.inputValue Attr.aInvert MStatus.kSuccess,
                  Event.setInvert invertData]
                -- lines 123-126
                match data.aWorldMatrix with
                | Slot.unreadable f =>
                  ⟨f.status, data, fFactory, t ++ [Event.inputValue Attr.aWorldMatrix f.status]⟩
                | Slot.value worldMatrix =>
                  let fFactory := fFactory.setWorldMatrix worldMatrix
                  let t := t ++ [Event.inputValue Attr.aWorldMatrix MStatus.kSuccess,
                    Event.setWorldMatrix worldMatrix]
                  -- lines 129-132
                  match data.aCutterBBoxMin with
                  | Slot.unreadable f =>
                    ⟨f.status, data, fFactory,
                      t ++ [Event.inputValue Attr.aCutterBBoxMin f.status]⟩
                  | Slot.value cutterBBoxMinHandle =>
                    let cutterBBoxMin := MFloatPoint.ofVector cutterBBoxMinHandle
                    let fFactory := fFactory.setCutterBBoxMin cutterBBoxMin
                    let t := t ++ [Event.inputValue Attr.aCutterBBoxMin MStatus.kSuccess,
                      Event.setCutterBBoxMin cutterBBoxMin]
                    -- lines 135-138
                    match data.aCutterBBoxMax with
                    | Slot.unreadable f =>
                      ⟨f.status, data, fFactory,
                        t ++ [Event.inputValue Attr.aCutterBBoxMax f.status]⟩
                    | Slot.value cutterBBoxMaxHandle =>
                      let cutterBBoxMax := MFloatPoint.ofVector cutterBBoxMaxHandle
                      let fFactory := fFactory.setCutterBBoxMax cutterBBoxMax
                      let t := t ++ [Event.inputValue Attr.aCutterBBoxMax MStatus.kSuccess,
                        Event.setCutterBBoxMax cutterBBoxMax]
                      -- lines 141-144
                      match data.aCutterMatrix with
                      | Slot.unreadable f =>
                        ⟨f.status, data, fFactory,
                          t ++ [Event.inputValue Attr.aCutterMatrix f.status]⟩
                      | Slot.value cutterMatrix =>
                        let fFactory := fFactory.setCutterMatrix cutterMatrix
                        let t := t ++ [Event.inputValue Attr.aCutterMatrix MStatus.kSuccess,
                          Event.setCutterMatrix cutterMatrix]
                        -- lines 147-149
                        match data.aCutterShapeType with
                        | Slot.unreadable f =>
                          ⟨f.status, data, fFactory,
                            t ++ [Event.inputValue Attr.aCutterShapeType f.status]⟩
                        | Slot.value cutterShapeTypeData =>
                          let fFactory := fFactory.setCutterShapeType cutterShapeTypeData
                          let t := t ++ [Event.inputValue Attr.aCutterShapeType MStatus.kSuccess,
                            Event.setCutterShapeType cutterShapeTypeData]
                          -- lines 152-155
                          let mesh : MObject := outputData.asMesh
                          let fFactory := fFactory.setMesh (data.meshData mesh)
                          let t := t ++ [Event.setMesh mesh (data.meshData mesh)]
                          -- line 158
                          let ran := doIt fFactory
                          let status := ran.1
                          let t := t ++ [Event.doIt fFactory status]
                          let data := data.modifyMesh mesh ran.2.fMesh
                          -- line 161
                          let data := data.setClean
                          let t := t ++ [Event.setClean outputData.attr]
                          -- line 169
                          ⟨status, data, ran.2, t⟩
    else
      -- line 165
      ⟨MStatus.kUnknownParameter, data, fFactory, t⟩

/-! ## vcgMeshCutterNode::initialize (lines 185-300) -/

/-- Modelled from the spec: the enumeration `Shapes` (`None | Box | Sphere`) is declared with
the factory, outside this source file; the integer values of its three enumerators are
taken as given. -/
structure ShapesDecl where
  kNone : Int
  kCube : Int
  kSphere : Int
  deriving DecidableEq, Repr

/-- The kind of data an attribute is created with, and the default and enumeration fields
given at its creation. The float defaults and the storable, keyable, channel-box, hidden
and writable flags have no bearing on `compute` and are left out. -/
inductive AttrKind
  | boolean (default : Bool)
  | matrix
  | float3
  | enumeration (default : Int) (fields : List (String × Int))
  | mesh
  deriving DecidableEq, Repr

/-- An attribute as created by one of the attribute function sets. -/
structure AttrDecl where
  attr : Attr
  longName : String
  shortName : String
  kind : AttrKind
  deriving DecidableEq, Repr

/-- What `initialize` registers with the host for the node type: the attributes added, in
order, and the declared (input, output) dependencies. -/
structure NodeClass where
  attributes : List AttrDecl
  affects : List (Attr × Attr)
  deriving DecidableEq, Repr

/-- The call `addAttribute(attr)`. -/
def NodeClass.addAttribute (c : NodeClass) (d : AttrDecl) : NodeClass :=
  { c with attributes := c.attributes ++ [d] }

/-- The call `attributeAffects(whenChanges, isAffected)`. -/
def NodeClass.attributeAffects (c : NodeClass) (whenChanges isAffected : Attr) : NodeClass :=
  { c with affects := c.affects ++ [(whenChanges, isAffected)] }

/-- The method `vcgMeshCutterNode::initialize` (`initialize` itself is a keyword of Lean,
hence the longer name). `CHECK_MSTATUS` only reports, so every statement runs and the method
returns `kSuccess` (line 298). -/
def initializeNodeClass (shapes : ShapesDecl) : MStatus × NodeClass :=
  let c : NodeClass := ⟨[], []⟩
  -- lines 204-211
  let c := c.addAttribute ⟨Attr.aEnable, "enable", "enable", AttrKind.boolean true⟩
  -- lines 214-221
  let c := c.addAttribute ⟨Attr.aInvert, "invert", "invert", AttrKind.boolean false⟩
  -- lines 224-228
  let c := c.addAttribute ⟨Attr.aWorldMatrix, "worldMatrix", "worldMatrix", AttrKind.matrix⟩
  -- lines 231-237
  let c := c.addAttribute ⟨Attr.aCutterBBoxMin, "cutterBBoxMin", "cutterBBoxMin", AttrKind.float3⟩
  -- lines 240-246
  let c := c.addAttribute ⟨Attr.aCutterBBoxMax, "cutterBBoxMax", "cutterBBoxMax", AttrKind.float3⟩
  -- lines 249-253
  let c := c.addAttribute ⟨Attr.aCutterMatrix, "cutterMatrix", "cutterMatrix", AttrKind.matrix⟩
  -- lines 256-263
  let c := c.addAttribute ⟨Attr.aCutterShapeType, "cutterShapeType", "cutterShapeType",
    AttrKind.enumeration shapes.kCube
      [("None", shapes.kNone), ("Cube", shapes.kCube), ("Sphere", shapes.kSphere)]⟩
  -- lines 266-269
  let c := c.addAttribute ⟨Attr.inMesh, "inMesh", "im", AttrKind.mesh⟩
  -- lines 273-277
  let c := c.addAttribute ⟨Attr.outMesh, "outMesh", "om", AttrKind.mesh⟩
  -- lines 281-296
  let c := c.attributeAffects Attr.inMesh Attr.outMesh
  let c := c.attributeAffects Attr.aEnable Attr.outMesh
  let c := c.attributeAffects Attr.aInvert Attr.outMesh
  let c := c.attributeAffects Attr.aWorldMatrix Attr.outMesh
  let c := c.attributeAffects Attr.aCutterBBoxMin Attr.outMesh
  let c := c.attributeAffects Attr.aCutterBBoxMax Attr.outMesh
  let c := c.attributeAffects Attr.aCutterMatrix Attr.outMesh
  let c := c.attributeAffects Attr.aCutterShapeType Attr.outMesh
  (MStatus.kSuccess, c)

/-- The attributes a call of `compute` read through `inputValue`, in order. -/
def inputsRead : List Event → List Attr
  | [] => []
  | Event.inputValue a _ :: t => a :: inputsRead t
  | _ :: t => inputsRead t

/-! ## The factory's run, as the spec describes it -/

/-- Modelled from the spec: the body of `vcgMeshCutterFty::doIt` is not part of this source
file. The spec says that shape `None` disables cutting entirely and that the cut then
returns the unmodified input mesh; for the other shapes the cut itself is the parameter
`cut`. -/
def doItSpec (shapes : ShapesDecl) (cut : DoIt) : DoIt :=
  fun fty => if fty.fCutterShapeType = shapes.kNone then (MStatus.kSuccess, fty) else cut fty

/-! ## Sample inputs -/

/-- The identity matrix (`1.0` is `0x3FF0000000000000`). -/
def identityMatrix : MMatrix :=
  ⟨[[0x3FF0000000000000, 0, 0, 0], [0, 0x3FF0000000000000, 0, 0],
    [0, 0, 0x3FF0000000000000, 0], [0, 0, 0, 0x3FF0000000000000]]⟩

/-- A single triangle. -/
def triangle : Mesh :=
  ⟨[⟨0, 0, 0, 0x3F800000⟩, ⟨0x3F800000, 0, 0, 0x3F800000⟩, ⟨0, 0x3F800000, 0, 0x3F800000⟩],
    [[0, 1, 2]]⟩

/-- A mesh without vertices or faces. -/
def emptyMesh : Mesh := ⟨[], []⟩

/-- A data block in normal state with the cutter enabled, a cube cutter of extents
`-0.5 .. 0.5`, and a dirty `outMesh`. -/
def enabledBlock : MDataBlock :=
  { state := Slot.value 0
    inMesh := Slot.value triangle
    outMesh := Slot.value emptyMesh
    aEnable := Slot.value true
    aInvert := Slot.value true
    aWorldMatrix := Slot.value identityMatrix
    aCutterBBoxMin := Slot.value ⟨0xBF000000, 0xBF000000, 0xBF000000⟩
    aCutterBBoxMax := Slot.value ⟨0x3F000000, 0x3F000000, 0x3F000000⟩
    aCutterMatrix := Slot.value identityMatrix
    aCutterShapeType := Slot.value 1
    outMeshClean := false }

/-- The same block with the cutter disabled. -/
def disabledBlock : MDataBlock := { enabledBlock with aEnable := Slot.value false }

/-- The same block with the node in state 1 (HasNoEffect/PassThrough). -/
def passThroughBlock : MDataBlock := { enabledBlock with state := Slot.value 1 }

/-- The same block with an `inMesh` that cannot be read. -/
def brokenBlock : MDataBlock :=
  { enabledBlock with inMesh := Slot.unreadable ⟨MStatus.kInvalidParameter, by decide⟩ }

/-- A factory as some earlier call may have left it. -/
def staleFactory : vcgMeshCutterFty :=
  ⟨false, ⟨[]⟩, ⟨1, 2, 3, 4⟩, ⟨5, 6, 7, 8⟩, ⟨[[9]]⟩, 2, emptyMesh⟩

/-- Another factory, differing from `staleFactory` in every field. -/
def freshFactory : vcgMeshCutterFty :=
  ⟨true, identityMatrix, ⟨0, 0, 0, 0⟩, ⟨0, 0, 0, 0⟩, identityMatrix, 0, triangle⟩

/-- A run of the factory that succeeds and removes every face of the mesh. -/
def dropFaces : DoIt := fun fty => (MStatus.kSuccess, { fty with fMesh := ⟨fty.fMesh.vertices, []⟩ })

/-- A run of the factory that fails and leaves the mesh alone. -/
def failingRun : DoIt := fun fty => (MStatus.kFailure, fty)

/-- Enumerator values `None = 0`, `Cube = 1`, `Sphere = 2`. -/
def sampleShapes : ShapesDecl := ⟨0, 1, 2⟩

/-- The enabled sample block with the cutter shape type set to `None` of `sampleShapes`. -/
def noneShapeBlock : MDataBlock := { enabledBlock with aCutterShapeType := Slot.value 0 }

/-- The eight attributes `compute` reads through `inputValue` when it computes `outMesh`. -/
def cutInputs : List Attr :=
  [Attr.inMesh, Attr.aEnable, Attr.aInvert, Attr.aWorldMatrix, Attr.aCutterBBoxMin,
   Attr.aCutterBBoxMax, Attr.aCutterMatrix, Attr.aCutterShapeType]

/-- The status an access reported, for the two kinds of data-block access. -/
def Event.accessStatus : Event → Option MStatus
  | Event.inputValue _ st => some st
  | Event.outputValue _ st => some st
  | _ => none

/-! ## Theorems -/

/-- C1: when the node state is not 1, the requested plug is `outMesh`, the accesses to
`inMesh`, `outMesh` and `enable` succeed and `enable` is false, `compute` returns success,
`outMesh` holds the value of `inMesh` (nothing else in the block changes), the factory is
exactly as it was, and the only calls made are the four accesses and the copy: no setter of
the factory and no `doIt`. -/
theorem compute_disabled_passes_input_through (doIt : DoIt) (plug : MPlug) (data : MDataBlock)
    (fFactory : vcgMeshCutterFty) (stateData : Int) (inputData outputData : Mesh)
    (hstate : data.state = Slot.value stateData) (hnormal : stateData ≠ 1)
    (hplug : plug.attr = Attr.outMesh)
    (hin : data.inMesh = Slot.value inputData) (hout : data.outMesh = Slot.value outputData)
    (henable : data.aEnable = Slot.value false) :
    (compute doIt plug data fFactory).status = MStatus.kSuccess ∧
    (compute doIt plug data fFactory).data.outMesh = data.inMesh ∧
    (compute doIt plug data fFactory).data = data.set inputData ∧
    (compute doIt plug data fFactory).fFactory = fFactory ∧
    (compute doIt plug data fFactory).trace =
      [Event.outputValue Attr.state MStatus.kSuccess,
       Event.inputValue Attr.inMesh MStatus.kSuccess,
       Event.outputValue Attr.outMesh MStatus.kSuccess,
       Event.set Attr.outMesh inputData,
       Event.inputValue Attr.aEnable MStatus.kSuccess] := by
  simp [compute, hstate, hnormal, hplug, hin, hout, henable, MDataBlock.set,
    MDataBlock.meshData, MDataHandle.asMesh]

/-- Witness of C1 on the disabled sample block, with a factory left over from an earlier
call and a `doIt` that would remove every face. -/
theorem compute_disabled_passes_input_through_witness :
    (disabledBlock.state = Slot.value 0 ∧ (0 : Int) ≠ 1 ∧
      (MPlug.mk Attr.outMesh).attr = Attr.outMesh ∧
      disabledBlock.inMesh = Slot.value triangle ∧
      disabledBlock.outMesh = Slot.value emptyMesh ∧
      disabledBlock.aEnable = Slot.value false) ∧
    ((compute dropFaces ⟨Attr.outMesh⟩ disabledBlock staleFactory).status = MStatus.kSuccess ∧
     (compute dropFaces ⟨Attr.outMesh⟩ disabledBlock staleFactory).data.outMesh
        = disabledBlock.inMesh ∧
     (compute dropFaces ⟨Attr.outMesh⟩ disabledBlock staleFactory).data
        = disabledBlock.set triangle ∧
     (compute dropFaces ⟨Attr.outMesh⟩ disabledBlock staleFactory).fFactory = staleFactory ∧
     (compute dropFaces ⟨Attr.outMesh⟩ disabledBlock staleFactory).trace =
       [Event.outputValue Attr.state MStatus.kSuccess,
        Event.inputValue Attr.inMesh MStatus.kSuccess,
        Event.outputValue Attr.outMesh MStatus.kSuccess,
        Event.set Attr.outMesh triangle,
        Event.inputValue Attr.aEnable MStatus.kSuccess]) :=
  ⟨⟨rfl, by decide, rfl, rfl, rfl, rfl⟩,
   compute_disabled_passes_input_through dropFaces ⟨Attr.outMesh⟩ disabledBlock staleFactory
     0 triangle emptyMesh rfl (by decide) rfl rfl rfl rfl⟩

/-- C2: when the node state is 1 and the accesses to `inMesh` and `outMesh` succeed,
`compute` returns success for every plug, `outMesh` holds the value of `inMesh` (nothing
else in the block changes), the factory is exactly as it was, and the only calls made are
the three accesses and the copy: no cutter attribute is read, no setter of the factory is
called and `doIt` is not run. -/
theorem compute_pass_through (doIt : DoIt) (plug : MPlug) (data : MDataBlock)
    (fFactory : vcgMeshCutterFty) (inputData outputData : Mesh)
    (hstate : data.state = Slot.value 1)
    (hin : data.inMesh = Slot.value inputData) (hout : data.outMesh = Slot.value outputData) :
    (compute doIt plug data fFactory).status = MStatus.kSuccess ∧
    (compute doIt plug data fFactory).data.outMesh = data.inMesh ∧
    (compute doIt plug data fFactory).data = data.set inputData ∧
    (compute doIt plug data fFactory).fFactory = fFactory ∧
    (compute doIt plug data fFactory).trace =
      [Event.outputValue Attr.state MStatus.kSuccess,
       Event.inputValue Attr.inMesh MStatus.kSuccess,
       Event.outputValue Attr.outMesh MStatus.kSuccess,
       Event.set Attr.outMesh inputData] := by
  simp [compute, hstate, hin, hout, MDataBlock.set, MDataBlock.meshData,
    MDataHandle.asMesh]

/-- Witness of C2 on the pass-through sample block, asked for a plug other than `outMesh`. -/
theorem compute_pass_through_witness :
    (passThroughBlock.state = Slot.value 1 ∧
      passThroughBlock.inMesh = Slot.value triangle ∧
      passThroughBlock.outMesh = Slot.value emptyMesh) ∧
    ((compute dropFaces ⟨Attr.aInvert⟩ passThroughBlock staleFactory).status
        = MStatus.kSuccess ∧
     (compute dropFaces ⟨Attr.aInvert⟩ passThroughBlock staleFactory).data.outMesh
        = passThroughBlock.inMesh ∧
     (compute dropFaces ⟨Attr.aInvert⟩ passThroughBlock staleFactory).data
        = passThroughBlock.set triangle ∧
     (compute dropFaces ⟨Attr.aInvert⟩ passThroughBlock staleFactory).fFactory = staleFactory ∧
     (compute dropFaces ⟨Attr.aInvert⟩ passThroughBlock staleFactory).trace =
       [Event.outputValue Attr.state MStatus.kSuccess,
        Event.inputValue Attr.inMesh MStatus.kSuccess,
        Event.outputValue Attr.outMesh MStatus.kSuccess,
        Event.set Attr.outMesh triangle]) :=
  ⟨⟨rfl, rfl, rfl⟩,
   compute_pass_through dropFaces ⟨Attr.aInvert⟩ passThroughBlock staleFactory
     triangle emptyMesh rfl rfl rfl⟩

/-- C3: on the enabled path the calls `compute` makes are exactly the ten accesses, the
copy of `inMesh` into `outMesh`, the seven setters with the values just read from the data
block, then `doIt`, then `setClean`. The factory `doIt` runs on has all seven fields taken
from the data block, and the whole outcome is the same whatever factory state the node
held before the call. -/
theorem compute_configures_factory_from_inputs (doIt : DoIt) (plug : MPlug)
    (data : MDataBlock) (fFactory : vcgMeshCutterFty) (stateData : Int)
    (inputData outputData : Mesh) (invertData : Bool) (worldMatrix cutterMatrix : MMatrix)
    (bboxMin bboxMax : MFloatVector) (shapeType : Int)
    (hstate : data.state = Slot.value stateData) (hnormal : stateData ≠ 1)
    (hplug : plug.attr = Attr.outMesh)
    (hin : data.inMesh = Slot.value inputData) (hout : data.outMesh = Slot.value outputData)
    (henable : data.aEnable = Slot.value true)
    (hinvert : data.aInvert = Slot.value invertData)
    (hworld : data.aWorldMatrix = Slot.value worldMatrix)
    (hmin : data.aCutterBBoxMin = Slot.value bboxMin)
    (hmax : data.aCutterBBoxMax = Slot.value bboxMax)
    (hcutter : data.aCutterMatrix = Slot.value cutterMatrix)
    (hshape : data.aCutterShapeType = Slot.value shapeType) :
    (compute doIt plug data fFactory).trace =
      [Event.outputValue Attr.state MStatus.kSuccess,
       Event.inputValue Attr.inMesh MStatus.kSuccess,
       Event.outputValue Attr.outMesh MStatus.kSuccess,
       Event.set Attr.outMesh inputData,
       Event.inputValue Attr.aEnable MStatus.kSuccess,
       Event.inputValue Attr.aInvert MStatus.kSuccess,
       Event.setInvert invertData,
       Event.inputValue Attr.aWorldMatrix MStatus.kSuccess,
       Event.setWorldMatrix worldMatrix,
       Event.inputValue Attr.aCutterBBoxMin MStatus.kSuccess,
       Event.setCutterBBoxMin (MFloatPoint.ofVector bboxMin),
       Event.inputValue Attr.aCutterBBoxMax MStatus.kSuccess,
       Event.setCutterBBoxMax (MFloatPoint.ofVector bboxMax),
       Event.inputValue Attr.aCutterMatrix MStatus.kSuccess,
       Event.setCutterMatrix cutterMatrix,
       Event.inputValue Attr.aCutterShapeType MStatus.kSuccess,
       Event.setCutterShapeType shapeType,
       Event.setMesh ⟨Attr.outMesh⟩ inputData,
       Event.doIt
         ⟨invertData, worldMatrix, MFloatPoint.ofVector bboxMin, MFloatPoint.ofVector bboxMax,
           cutterMatrix, shapeType, inputData⟩
         (doIt ⟨invertData, worldMatrix, MFloatPoint.ofVector bboxMin,
           MFloatPoint.ofVector bboxMax, cutterMatrix, shapeType, inputData⟩).1,
       Event.setClean Attr.outMesh] ∧
    (compute doIt plug data fFactory).fFactory =
      (doIt ⟨invertData, worldMatrix, MFloatPoint.ofVector bboxMin,
        MFloatPoint.ofVector bboxMax, cutterMatrix, shapeType, inputData⟩).2 ∧
    ∀ earlier : vcgMeshCutterFty,
      compute doIt plug data earlier = compute doIt plug data fFactory := by
  simp [compute, hstate, hnormal, hplug, hin, hout, henable, hinvert, hworld, hmin, hmax,
    hcutter, hshape, MDataBlock.set, MDataBlock.asMesh, MDataBlock.setClean,
    MDataBlock.meshData, MDataBlock.modifyMesh, MDataHandle.asMesh,
    vcgMeshCutterFty.setInvert, vcgMeshCutterFty.setWorldMatrix,
    vcgMeshCutterFty.setCutterBBoxMin, vcgMeshCutterFty.setCutterBBoxMax,
    vcgMeshCutterFty.setCutterMatrix, vcgMeshCutterFty.setCutterShapeType,
    vcgMeshCutterFty.setMesh]

/-- Witness of C3 on the enabled sample block: the factory `doIt` runs on is built from
the block, and starting from `freshFactory` instead of `staleFactory` changes nothing. -/
theorem compute_configures_factory_from_inputs_witness :
    (enabledBlock.state = Slot.value 0 ∧ (0 : Int) ≠ 1 ∧
      (MPlug.mk Attr.outMesh).attr = Attr.outMesh ∧
      enabledBlock.inMesh = Slot.value triangle ∧
      enabledBlock.outMesh = Slot.value emptyMesh ∧
      enabledBlock.aEnable = Slot.value true ∧
      enabledBlock.aInvert = Slot.value true ∧
      enabledBlock.aWorldMatrix = Slot.value identityMatrix ∧
      enabledBlock.aCutterBBoxMin = Slot.value ⟨0xBF000000, 0xBF000000, 0xBF000000⟩ ∧
      enabledBlock.aCutterBBoxMax = Slot.value ⟨0x3F000000, 0x3F000000, 0x3F000000⟩ ∧
      enabledBlock.aCutterMatrix = Slot.value identityMatrix ∧
      enabledBlock.aCutterShapeType = Slot.value 1) ∧
    ((compute dropFaces ⟨Attr.outMesh⟩ enabledBlock staleFactory).trace =
      [Event.outputValue Attr.state MStatus.kSuccess,
       Event.inputValue Attr.inMesh MStatus.kSuccess,
       Event.outputValue Attr.outMesh MStatus.kSuccess,
       Event.set Attr.outMesh triangle,
       Event.inputValue Attr.aEnable MStatus.kSuccess,
       Event.inputValue Attr.aInvert MStatus.kSuccess,
       Event.setInvert true,
       Event.inputValue Attr.aWorldMatrix MStatus.kSuccess,
       Event.setWorldMatrix identityMatrix,
       Event.inputValue Attr.aCutterBBoxMin MStatus.kSuccess,
       Event.setCutterBBoxMin (MFloatPoint.ofVector ⟨0xBF000000, 0xBF000000, 0xBF000000⟩),
       Event.inputValue Attr.aCutterBBoxMax MStatus.kSuccess,
       Event.setCutterBBoxMax (MFloatPoint.ofVector ⟨0x3F000000, 0x3F000000, 0x3F000000⟩),
       Event.inputValue Attr.aCutterMatrix MStatus.kSuccess,
       Event.setCutterMatrix identityMatrix,
       Event.inputValue Attr.aCutterShapeType MStatus.kSuccess,
       Event.setCutterShapeType 1,
       Event.setMesh ⟨Attr.outMesh⟩ triangle,
       Event.doIt
         ⟨true, identityMatrix, MFloatPoint.ofVector ⟨0xBF000000, 0xBF000000, 0xBF000000⟩,
           MFloatPoint.ofVector ⟨0x3F000000, 0x3F000000, 0x3F000000⟩, identityMatrix, 1,
           triangle⟩
         (dropFaces ⟨true, identityMatrix,
           MFloatPoint.ofVector ⟨0xBF000000, 0xBF000000, 0xBF000000⟩,
           MFloatPoint.ofVector ⟨0x3F000000, 0x3F000000, 0x3F000000⟩, identityMatrix, 1,
           triangle⟩).1,
       Event.setClean Attr.outMesh] ∧
     (compute dropFaces ⟨Attr.outMesh⟩ enabledBlock staleFactory).fFactory =
       (dropFaces ⟨true, identityMatrix,
         MFloatPoint.ofVector ⟨0xBF000000, 0xBF000000, 0xBF000000⟩,
         MFloatPoint.ofVector ⟨0x3F000000, 0x3F000000, 0x3F000000⟩, identityMatrix, 1,
         triangle⟩).2 ∧
     ∀ earlier : vcgMeshCutterFty,
       compute dropFaces ⟨Attr.outMesh⟩ enabledBlock earlier
         = compute dropFaces ⟨Attr.outMesh⟩ enabledBlock staleFactory) :=
  ⟨⟨rfl, by decide, rfl, rfl, rfl, rfl, rfl, rfl, rfl, rfl, rfl, rfl⟩,
   compute_configures_factory_from_inputs dropFaces ⟨Attr.outMesh⟩ enabledBlock staleFactory
     0 triangle emptyMesh true identityMatrix identityMatrix
     ⟨0xBF000000, 0xBF000000, 0xBF000000⟩ ⟨0x3F000000, 0x3F000000, 0x3F000000⟩ 1
     rfl (by decide) rfl rfl rfl rfl rfl rfl rfl rfl rfl rfl⟩

/-- C4: on the enabled path the status `compute` returns is the status returned by the
call of `doIt` it made, on the factory configured from the data block: success exactly when
`doIt` succeeded, and any other status unchanged. -/
theorem compute_returns_doIt_status (doIt : DoIt) (plug : MPlug)
    (data : MDataBlock) (fFactory : vcgMeshCutterFty) (stateData : Int)
    (inputData outputData : Mesh) (invertData : Bool) (worldMatrix cutterMatrix : MMatrix)
    (bboxMin bboxMax : MFloatVector) (shapeType : Int)
    (hstate : data.state = Slot.value stateData) (hnormal : stateData ≠ 1)
    (hplug : plug.attr = Attr.outMesh)
    (hin : data.inMesh = Slot.value inputData) (hout : data.outMesh = Slot.value outputData)
    (henable : data.aEnable = Slot.value true)
    (hinvert : data.aInvert = Slot.value invertData)
    (hworld : data.aWorldMatrix = Slot.value worldMatrix)
    (hmin : data.aCutterBBoxMin = Slot.value bboxMin)
    (hmax : data.aCutterBBoxMax = Slot.value bboxMax)
    (hcutter : data.aCutterMatrix = Slot.value cutterMatrix)
    (hshape : data.aCutterShapeType = Slot.value shapeType) :
    (compute doIt plug data fFactory).status =
      (doIt ⟨invertData, worldMatrix, MFloatPoint.ofVector bboxMin,
        MFloatPoint.ofVector bboxMax, cutterMatrix, shapeType, inputData⟩).1 ∧
    Event.doIt
        ⟨invertData, worldMatrix, MFloatPoint.ofVector bboxMin, MFloatPoint.ofVector bboxMax,
          cutterMatrix, shapeType, inputData⟩
        (compute doIt plug data fFactory).status ∈ (compute doIt plug data fFactory).trace ∧
    ((compute doIt plug data fFactory).status = MStatus.kSuccess ↔
      (doIt ⟨invertData, worldMatrix, MFloatPoint.ofVector bboxMin,
        MFloatPoint.ofVector bboxMax, cutterMatrix, shapeType, inputData⟩).1
        = MStatus.kSuccess) := by
  simp [compute, hstate, hnormal, hplug, hin, hout, henable, hinvert, hworld, hmin, hmax,
    hcutter, hshape, MDataBlock.set, MDataBlock.asMesh, MDataBlock.setClean,
    MDataBlock.meshData, MDataBlock.modifyMesh, MDataHandle.asMesh,
    vcgMeshCutterFty.setInvert, vcgMeshCutterFty.setWorldMatrix,
    vcgMeshCutterFty.setCutterBBoxMin, vcgMeshCutterFty.setCutterBBoxMax,
    vcgMeshCutterFty.setCutterMatrix, vcgMeshCutterFty.setCutterShapeType,
    vcgMeshCutterFty.setMesh]

/-- Witness of C4 on the enabled sample block with a `doIt` that fails: `compute` returns
that failure. -/
theorem compute_returns_doIt_status_witness :
    (enabledBlock.state = Slot.value 0 ∧ (0 : Int) ≠ 1 ∧
      (MPlug.mk Attr.outMesh).attr = Attr.outMesh ∧
      enabledBlock.inMesh = Slot.value triangle ∧
      enabledBlock.outMesh = Slot.value emptyMesh ∧
      enabledBlock.aEnable = Slot.value true ∧
      enabledBlock.aInvert = Slot.value true ∧
      enabledBlock.aWorldMatrix = Slot.value identityMatrix ∧
      enabledBlock.aCutterBBoxMin = Slot.value ⟨0xBF000000, 0xBF000000, 0xBF000000⟩ ∧
      enabledBlock.aCutterBBoxMax = Slot.value ⟨0x3F000000, 0x3F000000, 0x3F000000⟩ ∧
      enabledBlock.aCutterMatrix = Slot.value identityMatrix ∧
      enabledBlock.aCutterShapeType = Slot.value 1) ∧
    (compute failingRun ⟨Attr.outMesh⟩ enabledBlock staleFactory).status = MStatus.kFailure ∧
    ((compute failingRun ⟨Attr.outMesh⟩ enabledBlock staleFactory).status =
      (failingRun ⟨true, identityMatrix,
        MFloatPoint.ofVector ⟨0xBF000000, 0xBF000000, 0xBF000000⟩,
        MFloatPoint.ofVector ⟨0x3F000000, 0x3F000000, 0x3F000000⟩, identityMatrix, 1,
        triangle⟩).1 ∧
     Event.doIt
        ⟨true, identityMatrix, MFloatPoint.ofVector ⟨0xBF000000, 0xBF000000, 0xBF000000⟩,
          MFloatPoint.ofVector ⟨0x3F000000, 0x3F000000, 0x3F000000⟩, identityMatrix, 1,
          triangle⟩
        (compute failingRun ⟨Attr.outMesh⟩ enabledBlock staleFactory).status
        ∈ (compute failingRun ⟨Attr.outMesh⟩ enabledBlock staleFactory).trace ∧
     ((compute failingRun ⟨Attr.outMesh⟩ enabledBlock staleFactory).status
        = MStatus.kSuccess ↔
      (failingRun ⟨true, identityMatrix,
        MFloatPoint.ofVector ⟨0xBF000000, 0xBF000000, 0xBF000000⟩,
        MFloatPoint.ofVector ⟨0x3F000000, 0x3F000000, 0x3F000000⟩, identityMatrix, 1,
        triangle⟩).1 = MStatus.kSuccess)) :=
  ⟨⟨rfl, by decide, rfl, rfl, rfl, rfl, rfl, rfl, rfl, rfl, rfl, rfl⟩, by decide,
   compute_returns_doIt_status failingRun ⟨Attr.outMesh⟩ enabledBlock staleFactory
     0 triangle emptyMesh true identityMatrix identityMatrix
     ⟨0xBF000000, 0xBF000000, 0xBF000000⟩ ⟨0x3F000000, 0x3F000000, 0x3F000000⟩ 1
     rfl (by decide) rfl rfl rfl rfl rfl rfl rfl rfl rfl rfl⟩

/-- C5: when the node state is not 1 and the requested plug is not `outMesh`, `compute`
returns `kUnknownParameter`; the data block (values and clean flag) and the factory are
exactly as before, and the only call made is the access to `state`. -/
theorem compute_unknown_plug (doIt : DoIt) (plug : MPlug) (data : MDataBlock)
    (fFactory : vcgMeshCutterFty) (stateData : Int)
    (hstate : data.state = Slot.value stateData) (hnormal : stateData ≠ 1)
    (hplug : plug.attr ≠ Attr.outMesh) :
    (compute doIt plug data fFactory).status = MStatus.kUnknownParameter ∧
    (compute doIt plug data fFactory).data = data ∧
    (compute doIt plug data fFactory).fFactory = fFactory ∧
    (compute doIt plug data fFactory).trace =
      [Event.outputValue Attr.state MStatus.kSuccess] := by
  simp [compute, hstate, hnormal, hplug]

/-- Witness of C5 on the enabled sample block, asked for the plug of `enable`. -/
theorem compute_unknown_plug_witness :
    (enabledBlock.state = Slot.value 0 ∧ (0 : Int) ≠ 1 ∧
      (MPlug.mk Attr.aEnable).attr ≠ Attr.outMesh) ∧
    ((compute dropFaces ⟨Attr.aEnable⟩ enabledBlock staleFactory).status
        = MStatus.kUnknownParameter ∧
     (compute dropFaces ⟨Attr.aEnable⟩ enabledBlock staleFactory).data = enabledBlock ∧
     (compute dropFaces ⟨Attr.aEnable⟩ enabledBlock staleFactory).fFactory = staleFactory ∧
     (compute dropFaces ⟨Attr.aEnable⟩ enabledBlock staleFactory).trace =
       [Event.outputValue Attr.state MStatus.kSuccess]) :=
  ⟨⟨rfl, by decide, by decide⟩,
   compute_unknown_plug dropFaces ⟨Attr.aEnable⟩ enabledBlock staleFactory 0
     rfl (by decide) (by decide)⟩

/-- C6: with the factory's run as the spec describes it, a call of `compute` on the
enabled path with cutter shape type `None` returns success and leaves in `outMesh` the mesh
of `inMesh`: the same vertex positions and the same faces. -/
theorem compute_shape_none_keeps_mesh (shapes : ShapesDecl) (cut : DoIt) (plug : MPlug)
    (data : MDataBlock) (fFactory : vcgMeshCutterFty) (stateData : Int)
    (inputData outputData : Mesh) (invertData : Bool) (worldMatrix cutterMatrix : MMatrix)
    (bboxMin bboxMax : MFloatVector)
    (hstate : data.state = Slot.value stateData) (hnormal : stateData ≠ 1)
    (hplug : plug.attr = Attr.outMesh)
    (hin : data.inMesh = Slot.value inputData) (hout : data.outMesh = Slot.value outputData)
    (henable : data.aEnable = Slot.value true)
    (hinvert : data.aInvert = Slot.value invertData)
    (hworld : data.aWorldMatrix = Slot.value worldMatrix)
    (hmin : data.aCutterBBoxMin = Slot.value bboxMin)
    (hmax : data.aCutterBBoxMax = Slot.value bboxMax)
    (hcutter : data.aCutterMatrix = Slot.value cutterMatrix)
    (hshape : data.aCutterShapeType = Slot.value shapes.kNone) :
    (compute (doItSpec shapes cut) plug data fFactory).status = MStatus.kSuccess ∧
    (compute (doItSpec shapes cut) plug data fFactory).data.outMesh = data.inMesh ∧
    (compute (doItSpec shapes cut) plug data fFactory).data.asMesh.vertices
      = inputData.vertices ∧
    (compute (doItSpec shapes cut) plug data fFactory).data.asMesh.polygons
      = inputData.polygons := by
  simp [compute, doItSpec, hstate, hnormal, hplug, hin, hout, henable, hinvert, hworld, hmin,
    hmax, hcutter, hshape, MDataBlock.set, MDataBlock.asMesh, MDataBlock.setClean,
    MDataBlock.meshData, MDataBlock.modifyMesh, MDataHandle.asMesh,
    vcgMeshCutterFty.setInvert, vcgMeshCutterFty.setWorldMatrix,
    vcgMeshCutterFty.setCutterBBoxMin, vcgMeshCutterFty.setCutterBBoxMax,
    vcgMeshCutterFty.setCutterMatrix, vcgMeshCutterFty.setCutterShapeType,
    vcgMeshCutterFty.setMesh]

/-- Witness of C6 on the sample block with shape `None`, where the cut of the other shapes
would remove every face. -/
theorem compute_shape_none_keeps_mesh_witness :
    (noneShapeBlock.state = Slot.value 0 ∧ (0 : Int) ≠ 1 ∧
      (MPlug.mk Attr.outMesh).attr = Attr.outMesh ∧
      noneShapeBlock.inMesh = Slot.value triangle ∧
      noneShapeBlock.outMesh = Slot.value emptyMesh ∧
      noneShapeBlock.aEnable = Slot.value true ∧
      noneShapeBlock.aInvert = Slot.value true ∧
      noneShapeBlock.aWorldMatrix = Slot.value identityMatrix ∧
      noneShapeBlock.aCutterBBoxMin = Slot.value ⟨0xBF000000, 0xBF000000, 0xBF000000⟩ ∧
      noneShapeBlock.aCutterBBoxMax = Slot.value ⟨0x3F000000, 0x3F000000, 0x3F000000⟩ ∧
      noneShapeBlock.aCutterMatrix = Slot.value identityMatrix ∧
      noneShapeBlock.aCutterShapeType = Slot.value sampleShapes.kNone) ∧
    ((compute (doItSpec sampleShapes dropFaces) ⟨Attr.outMesh⟩ noneShapeBlock
        staleFactory).status = MStatus.kSuccess ∧
     (compute (doItSpec sampleShapes dropFaces) ⟨Attr.outMesh⟩ noneShapeBlock
        staleFactory).data.outMesh = noneShapeBlock.inMesh ∧
     (compute (doItSpec sampleShapes dropFaces) ⟨Attr.outMesh⟩ noneShapeBlock
        staleFactory).data.asMesh.vertices = triangle.vertices ∧
     (compute (doItSpec sampleShapes dropFaces) ⟨Attr.outMesh⟩ noneShapeBlock
        staleFactory).data.asMesh.polygons = triangle.polygons) :=
  ⟨⟨rfl, by decide, rfl, rfl, rfl, rfl, rfl, rfl, rfl, rfl, rfl, rfl⟩,
   compute_shape_none_keeps_mesh sampleShapes dropFaces ⟨Attr.outMesh⟩ noneShapeBlock
     staleFactory 0 triangle emptyMesh true identityMatrix identityMatrix
     ⟨0xBF000000, 0xBF000000, 0xBF000000⟩ ⟨0x3F000000, 0x3F000000, 0x3F000000⟩
     rfl (by decide) rfl rfl rfl rfl rfl rfl rfl rfl rfl rfl⟩

/-- C7: whatever the plug, the data block, the factory and the factory's `doIt`, the
`inMesh` slot of the data block after `compute` is the one before it. Whenever `compute`
hands a mesh object to the factory, that object is the one of `outMesh` and not the one of
`inMesh`, and the data it holds is the copy of the `inMesh` data that `set` placed in
`outMesh`. Whenever `doIt` ran, what it left in the factory's mesh is what `outMesh` holds
on return. -/
theorem compute_keeps_inMesh (doIt : DoIt) (plug : MPlug) (data : MDataBlock)
    (fFactory : vcgMeshCutterFty) :
    (compute doIt plug data fFactory).data.inMesh = data.inMesh ∧
    (∀ (obj : MObject) (mesh : Mesh),
      Event.setMesh obj mesh ∈ (compute doIt plug data fFactory).trace →
        obj = MDataHandle.asMesh ⟨Attr.outMesh⟩ ∧
        obj ≠ MDataHandle.asMesh ⟨Attr.inMesh⟩ ∧
        Event.set Attr.outMesh mesh ∈ (compute doIt plug data fFactory).trace ∧
        data.inMesh = Slot.value mesh) ∧
    (∀ (fty : vcgMeshCutterFty) (st : MStatus),
      Event.doIt fty st ∈ (compute doIt plug data fFactory).trace →
        (compute doIt plug data fFactory).data.outMesh = Slot.value (doIt fty).2.fMesh) := by
  generalize ho : compute doIt plug data fFactory = o
  simp only [compute] at ho
  repeat' split at ho
  all_goals subst ho
  all_goals simp_all [MDataBlock.set, MDataBlock.setClean, MDataBlock.asMesh,
    MDataBlock.meshData, MDataBlock.modifyMesh, MDataHandle.asMesh]

/-- Witness of C7 on the enabled sample block with a `doIt` that removes every face: the
factory is handed the object of `outMesh`, `outMesh` ends up without faces, and `inMesh` is
still the triangle. -/
theorem compute_keeps_inMesh_witness :
    Event.setMesh ⟨Attr.outMesh⟩ triangle
      ∈ (compute dropFaces ⟨Attr.outMesh⟩ enabledBlock staleFactory).trace ∧
    (compute dropFaces ⟨Attr.outMesh⟩ enabledBlock staleFactory).data.outMesh
      = Slot.value ⟨triangle.vertices, []⟩ ∧
    (compute dropFaces ⟨Attr.outMesh⟩ enabledBlock staleFactory).data.inMesh
      = Slot.value triangle ∧
    ((compute dropFaces ⟨Attr.outMesh⟩ enabledBlock staleFactory).data.inMesh
      = enabledBlock.inMesh ∧
     (∀ (obj : MObject) (mesh : Mesh),
      Event.setMesh obj mesh
        ∈ (compute dropFaces ⟨Attr.outMesh⟩ enabledBlock staleFactory).trace →
        obj = MDataHandle.asMesh ⟨Attr.outMesh⟩ ∧
        obj ≠ MDataHandle.asMesh ⟨Attr.inMesh⟩ ∧
        Event.set Attr.outMesh mesh
          ∈ (compute dropFaces ⟨Attr.outMesh⟩ enabledBlock staleFactory).trace ∧
        enabledBlock.inMesh = Slot.value mesh) ∧
     (∀ (fty : vcgMeshCutterFty) (st : MStatus),
      Event.doIt fty st
        ∈ (compute dropFaces ⟨Attr.outMesh⟩ enabledBlock staleFactory).trace →
        (compute dropFaces ⟨Attr.outMesh⟩ enabledBlock staleFactory).data.outMesh
          = Slot.value (dropFaces fty).2.fMesh)) :=
  ⟨by decide, by decide, by decide,
   compute_keeps_inMesh dropFaces ⟨Attr.outMesh⟩ enabledBlock staleFactory⟩

/-- C9: if an access made by `compute` reported a status other than success, then
`compute` returns exactly that status, that access is the last call `compute` made (so it
is the first failure and nothing follows it), `doIt` is not called, `setClean` is not
called, and the clean flag of `outMesh` is what it was before the call. -/
theorem compute_returns_first_failure (doIt : DoIt) (plug : MPlug) (data : MDataBlock)
    (fFactory : vcgMeshCutterFty) (ev : Event) (st : MStatus)
    (hmade : ev ∈ (compute doIt plug data fFactory).trace)
    (haccess : ev.accessStatus = some st) (hfailed : st ≠ MStatus.kSuccess) :
    (compute doIt plug data fFactory).status = st ∧
    (compute doIt plug data fFactory).trace.getLast? = some ev ∧
    (∀ fty s, Event.doIt fty s ∉ (compute doIt plug data fFactory).trace) ∧
    (∀ a, Event.setClean a ∉ (compute doIt plug data fFactory).trace) ∧
    (compute doIt plug data fFactory).data.outMeshClean = data.outMeshClean := by
  revert hmade haccess hfailed st ev
  generalize ho : compute doIt plug data fFactory = o
  simp only [compute] at ho
  repeat' split at ho
  all_goals subst ho
  all_goals simp [Event.accessStatus, MDataBlock.set, MDataBlock.setClean]
  all_goals intro ev st hmade
  all_goals try casesm* _ ∨ _
  all_goals subst_vars
  all_goals try simp
  all_goals try
    first
    | (intro haccess; exact haccess.symm)
    | (intro haccess hfailed; exact haccess)
    | (intro haccess hfailed; exact absurd haccess.symm hfailed)

/-- Witness of C9 on the sample block whose `inMesh` cannot be read: `compute` returns
the status of that access, which is the last call it made. -/
theorem compute_returns_first_failure_witness :
    (Event.inputValue Attr.inMesh MStatus.kInvalidParameter
        ∈ (compute dropFaces ⟨Attr.outMesh⟩ brokenBlock staleFactory).trace ∧
      (Event.inputValue Attr.inMesh MStatus.kInvalidParameter).accessStatus
        = some MStatus.kInvalidParameter ∧
      MStatus.kInvalidParameter ≠ MStatus.kSuccess) ∧
    ((compute dropFaces ⟨Attr.outMesh⟩ brokenBlock staleFactory).status
        = MStatus.kInvalidParameter ∧
     (compute dropFaces ⟨Attr.outMesh⟩ brokenBlock staleFactory).trace.getLast?
        = some (Event.inputValue Attr.inMesh MStatus.kInvalidParameter) ∧
     (∀ fty s, Event.doIt fty s
        ∉ (compute dropFaces ⟨Attr.outMesh⟩ brokenBlock staleFactory).trace) ∧
     (∀ a, Event.setClean a
        ∉ (compute dropFaces ⟨Attr.outMesh⟩ brokenBlock staleFactory).trace) ∧
     (compute dropFaces ⟨Attr.outMesh⟩ brokenBlock staleFactory).data.outMeshClean
        = brokenBlock.outMeshClean) :=
  ⟨⟨by decide, rfl, by decide⟩,
   compute_returns_first_failure dropFaces ⟨Attr.outMesh⟩ brokenBlock staleFactory
     (Event.inputValue Attr.inMesh MStatus.kInvalidParameter) MStatus.kInvalidParameter
     (by decide) rfl (by decide)⟩

/-- C10: each of the eight attributes `inMesh`, `enable`, `invert`, `worldMatrix`,
`cutterBBoxMin`, `cutterBBoxMax`, `cutterMatrix`, `cutterShapeType` is added to the node by
`initialize` and declared there to affect `outMesh`; every dependency `initialize` declares
has `outMesh` as the affected attribute; and every attribute a call of `compute` reads
through `inputValue` is one of the eight. -/
theorem initialize_declares_cut_inputs (shapes : ShapesDecl) (doIt : DoIt) (plug : MPlug)
    (data : MDataBlock) (fFactory : vcgMeshCutterFty) :
    (initializeNodeClass shapes).1 = MStatus.kSuccess ∧
    (∀ a ∈ cutInputs,
      a ∈ (initializeNodeClass shapes).2.attributes.map AttrDecl.attr ∧
      (a, Attr.outMesh) ∈ (initializeNodeClass shapes).2.affects) ∧
    (∀ p ∈ (initializeNodeClass shapes).2.affects, p.1 ∈ cutInputs ∧ p.2 = Attr.outMesh) ∧
    (∀ a ∈ inputsRead (compute doIt plug data fFactory).trace, a ∈ cutInputs) := by
  refine ⟨rfl, ?_, ?_, ?_⟩
  · simp [cutInputs, initializeNodeClass, NodeClass.addAttribute, NodeClass.attributeAffects]
  · simp [cutInputs, initializeNodeClass, NodeClass.addAttribute, NodeClass.attributeAffects]
  · generalize ho : compute doIt plug data fFactory = o
    simp only [compute] at ho
    repeat' split at ho
    all_goals subst ho
    all_goals simp [inputsRead, cutInputs]

/-- Witness of C10 on the enabled sample block: that call of `compute` reads exactly the
eight attributes, in the order of `cutInputs`. -/
theorem initialize_declares_cut_inputs_witness :
    inputsRead (compute dropFaces ⟨Attr.outMesh⟩ enabledBlock staleFactory).trace
      = cutInputs ∧
    ((initializeNodeClass sampleShapes).1 = MStatus.kSuccess ∧
     (∀ a ∈ cutInputs,
       a ∈ (initializeNodeClass sampleShapes).2.attributes.map AttrDecl.attr ∧
       (a, Attr.outMesh) ∈ (initializeNodeClass sampleShapes).2.affects) ∧
     (∀ p ∈ (initializeNodeClass sampleShapes).2.affects,
       p.1 ∈ cutInputs ∧ p.2 = Attr.outMesh) ∧
     (∀ a ∈ inputsRead (compute dropFaces ⟨Attr.outMesh⟩ enabledBlock staleFactory).trace,
       a ∈ cutInputs)) :=
  ⟨by decide,
   initialize_declares_cut_inputs sampleShapes dropFaces ⟨Attr.outMesh⟩ enabledBlock
     staleFactory⟩

end MayaVcg
